import Mathlib

/-!
Shallow embedding of the Remote Program Execution Runner
(`src/extension/runner.ts`: `GrpcRunner`, `GrpcRunnerProgramSession`,
`GrpcRunnerEnvironment`) together with the wire message shapes from
`src/gen/runme/runner/v1/runner_pb.js`.

Modelling conventions:
* JavaScript exceptions (`throw new Error(msg)`) become `Except JsError _`
  results; the spec's error taxonomy (StateError, ProtocolError, ...)
  corresponds to the concrete thrown messages.
* Everything sent on the duplex stream's request direction
  (`session.requests.send(...)`, `session.requests.complete()`) is recorded
  as a `StreamAction` trace; events fired on the session's emitters are
  recorded as a `SessionEvent` trace, in fire order.
* Asynchronous callbacks (`responses.onMessage`, `responses.onComplete`)
  are modelled as explicit state transitions invoked with the incoming data.
* Optional TypeScript fields become `Option`; protobuf `bytes` become
  `List Nat` (byte values); `Buffer.from(data, 'utf-8')` is the UTF-8
  encoding `utf8Bytes`.
* The derived decoded-text emitters (`_onDidWrite`/`_onDidErr`, which just
  UTF-8-decode the raw events) are composed on top of the raw emitters and
  are not part of the raw trace modelled here.
-/

namespace Runme

/-- The google.protobuf.UInt32Value wrapper message: a present object
carrying a numeric `value`.  In JavaScript a present wrapper object is
truthy even when `value` is `0`. -/
structure UInt32Value where
  value : Nat
deriving DecidableEq, Repr

/-- Byte payloads (protobuf `bytes`, JS `Uint8Array`), as byte values. -/
abbrev Bytes := List Nat

/-- UTF-8 encoding of one character, as in `Buffer.from(_, 'utf-8')`. -/
def utf8EncodeCharNat (c : Char) : List Nat :=
  let n := c.toNat
  if n < 0x80 then [n]
  else if n < 0x800 then
    [0xC0 ||| (n >>> 6), 0x80 ||| (n &&& 0x3F)]
  else if n < 0x10000 then
    [0xE0 ||| (n >>> 12), 0x80 ||| ((n >>> 6) &&& 0x3F), 0x80 ||| (n &&& 0x3F)]
  else
    [0xF0 ||| (n >>> 18), 0x80 ||| ((n >>> 12) &&& 0x3F),
     0x80 ||| ((n >>> 6) &&& 0x3F), 0x80 ||| (n &&& 0x3F)]

/-- UTF-8 encoding of a string (`new Uint8Array(Buffer.from(data, 'utf-8'))`). -/
def utf8Bytes (s : String) : Bytes :=
  (s.data.map utf8EncodeCharNat).flatten

/-- A thrown JavaScript `Error`, identified by its message. -/
structure JsError where
  message : String
deriving DecidableEq, Repr

/-- runme.runner.v1.Session. -/
structure Session where
  id : String
  envs : List String
  metadata : List (String × String)
deriving DecidableEq, Repr

/-- The `script` oneof of `RunProgramOptions`. -/
inductive ScriptOptions where
  | commands (commands : List String)
  | script (script : String)
deriving DecidableEq, Repr

/-- An `IRunnerEnvironment` value as seen by `runOptionsToExecuteRequest`:
either a `GrpcRunnerEnvironment` of this Runner family (carrying its
`Session`), or a foreign implementation of the interface (which fails the
`instanceof GrpcRunnerEnvironment` check). -/
inductive RunnerEnvironmentRef where
  | grpc (session : Session)
  | foreign
deriving DecidableEq, Repr

/-- `RunProgramOptions` from runner.ts. -/
structure RunProgramOptions where
  programName : String
  args : Option (List String) := none
  cwd : Option String := none
  envs : Option (List String) := none
  script : Option ScriptOptions := none
  tty : Option Bool := none
  background : Option Bool := none
  environment : Option RunnerEnvironmentRef := none
deriving DecidableEq, Repr

/-- runme.runner.v1.ExecuteRequest, with the fields runner.ts constructs.
All fields optional: the code builds partial objects (the initial request
via `runOptionsToExecuteRequest`, input requests with only `inputData`). -/
structure ExecuteRequest where
  programName : Option String := none
  arguments : Option (List String) := none
  directory : Option String := none
  envs : Option (List String) := none
  commands : Option (List String) := none
  script : Option String := none
  tty : Option Bool := none
  background : Option Bool := none
  inputData : Option Bytes := none
  sessionId : Option String := none
deriving DecidableEq, Repr

/-- runme.runner.v1.ExecuteResponse: `exit_code` is a UInt32Value message
(absent or present), `stdout_data`/`stderr_data` are bytes (default empty). -/
structure ExecuteResponse where
  exitCode : Option UInt32Value := none
  stdoutData : Bytes := []
  stderrData : Bytes := []
deriving DecidableEq, Repr

/-- Something performed on the request direction of the duplex stream:
`session.requests.send(req)` or `session.requests.complete()` (half-close). -/
inductive StreamAction where
  | send (req : ExecuteRequest)
  | complete
deriving DecidableEq, Repr

/-- An event fired on one of the session's raw emitters
(`_onStdoutRaw`, `_onStderrRaw`, `_onDidClose`).  `close` fires
`_onDidClose.fire(code?.value)`, hence `Option Nat`. -/
inductive SessionEvent where
  | stdoutRaw (data : Bytes)
  | stderrRaw (data : Bytes)
  | didClose (code : Option Nat)
deriving DecidableEq, Repr

/-- The mutable fields of `GrpcRunnerProgramSession`:
`opts` (reassignable via `this.opts ??= opts`), `exitCode`,
`isDisposed` and `initialized`. -/
structure ProgramSessionState where
  opts : Option RunProgramOptions
  exitCode : Option UInt32Value
  isDisposed : Bool
  initialized : Bool
deriving DecidableEq, Repr

/-- `GrpcRunnerEnvironment.getSessionId()` returns `this.session.id`. -/
def getSessionId (session : Session) : String :=
  session.id

/-- `GrpcRunnerProgramSession.runOptionsToExecuteRequest`.  Throws
`Error("Expected gRPC environment!")` when an environment is present but is
not a `GrpcRunnerEnvironment`; otherwise builds the wire request, setting
`commands` only for the commands variant and `script` only for the script
variant, and resolving `sessionId` via `environment?.getSessionId()`. -/
def runOptionsToExecuteRequest (opts : RunProgramOptions) :
    Except JsError ExecuteRequest :=
  match opts.environment with
  | some RunnerEnvironmentRef.foreign =>
    Except.error ⟨"Expected gRPC environment!"⟩
  | env =>
    Except.ok
      { programName := some opts.programName
        arguments := opts.args
        directory := opts.cwd
        envs := opts.envs
        tty := opts.tty
        background := opts.background
        sessionId :=
          match env with
          | some (RunnerEnvironmentRef.grpc s) => some (getSessionId s)
          | _ => none
        commands :=
          match opts.script with
          | some (ScriptOptions.commands cs) => some cs
          | _ => none
        script :=
          match opts.script with
          | some (ScriptOptions.script s) => some s
          | _ => none }

/-- The JS truthiness choice `opts || this.opts` / `this.opts ??= opts`:
the effective options are the constructor's when present, else the
argument's. -/
def optsOr (stored given : Option RunProgramOptions) : Option RunProgramOptions :=
  match stored with
  | some o => some o
  | none => given

namespace ProgramSessionState

/-- `hasExited()`: `this.exitCode !== undefined || this.isDisposed`. -/
def hasExited (st : ProgramSessionState) : Bool :=
  st.exitCode.isSome || st.isDisposed

/-- `init(opts?)`: throws `"No run options!"` when neither the argument nor
the stored options are present; then throws `"Already initialized!"` when
already initialized; otherwise keeps the stored options (`this.opts ??=
opts`), sets `initialized`, and sends the mapped execute request.  When the
mapping itself throws, `initialized` has already been set (the JS
assignments precede the send expression). -/
def init (st : ProgramSessionState) (opts : Option RunProgramOptions) :
    ProgramSessionState × Except JsError (List StreamAction) :=
  match optsOr st.opts opts with
  | none => (st, Except.error ⟨"No run options!"⟩)
  | some o =>
    if st.initialized then
      (st, Except.error ⟨"Already initialized!"⟩)
    else
      let st' := { st with opts := some o, initialized := true }
      match runOptionsToExecuteRequest o with
      | Except.ok req => (st', Except.ok [StreamAction.send req])
      | Except.error e => (st', Except.error e)

/-- `run(opts)` awaits `this.init(opts)`. -/
def run (st : ProgramSessionState) (opts : RunProgramOptions) :
    ProgramSessionState × Except JsError (List StreamAction) :=
  st.init (some opts)

/-- The raw-input request built by `sendRawInput`. -/
def inputRequest (data : String) : ExecuteRequest :=
  { inputData := some (utf8Bytes data) }

/-- `handleInput(data)`: throws `"Cannot write to closed program session!"`
when `hasExited()`; otherwise sends the raw input bytes. -/
def handleInput (st : ProgramSessionState) (data : String) :
    ProgramSessionState × Except JsError (List StreamAction) :=
  if st.hasExited then
    (st, Except.error ⟨"Cannot write to closed program session!"⟩)
  else
    (st, Except.ok [StreamAction.send (inputRequest data)])

/-- `dispose(endSession = true)`: returns immediately when `isDisposed`;
otherwise, when `endSession` is true, awaits `requests.complete()` (the
stream half-close).  Note the method body never assigns
`this.isDisposed = true`; the state is returned exactly as the code leaves
it. -/
def dispose (st : ProgramSessionState) (endSession : Bool) :
    ProgramSessionState × List StreamAction :=
  if st.isDisposed then (st, [])
  else if endSession then (st, [StreamAction.complete])
  else (st, [])

/-- `close(code?)`: fires `_onDidClose.fire(code?.value)`, records
`this.exitCode = code`, then calls `this.dispose()` (with the default
`endSession = true`). -/
def close (st : ProgramSessionState) (code : Option UInt32Value) :
    ProgramSessionState × List StreamAction × List SessionEvent :=
  let st' := { st with exitCode := code }
  ((st'.dispose true).1, (st'.dispose true).2,
    [SessionEvent.didClose (code.map UInt32Value.value)])

/-- The `responses.onMessage` handler: fires a raw stdout event when
`stdoutData.length > 0`, a raw stderr event when `stderrData.length > 0`,
and calls `this.close(exitCode)` when the `exitCode` wrapper is present
(`if (exitCode)`: a present UInt32Value object is truthy even for value 0). -/
def onMessage (st : ProgramSessionState) (msg : ExecuteResponse) :
    ProgramSessionState × List StreamAction × List SessionEvent :=
  let evs :=
    (if msg.stdoutData.length > 0 then [SessionEvent.stdoutRaw msg.stdoutData] else [])
      ++ (if msg.stderrData.length > 0 then [SessionEvent.stderrRaw msg.stderrData] else [])
  match msg.exitCode with
  | some ec =>
    ((st.close (some ec)).1, (st.close (some ec)).2.1, evs ++ (st.close (some ec)).2.2)
  | none => (st, [], evs)

/-- The `responses.onComplete` handler: `this.dispose(false)`. -/
def onComplete (st : ProgramSessionState) : ProgramSessionState × List StreamAction :=
  st.dispose false

end ProgramSessionState

/-- VS Code pseudoterminal dimensions. -/
structure TerminalDimensions where
  columns : Nat
  rows : Nat
deriving DecidableEq, Repr

/-- `open(initialDimensions)`: the `Pseudoterminal` attach hook.  Its body
in runner.ts is empty, so it changes nothing and sends nothing. -/
def openHook (st : ProgramSessionState) (_dims : Option TerminalDimensions) :
    ProgramSessionState × List StreamAction :=
  (st, [])

/-- The `GrpcRunnerProgramSession` constructor: opens the duplex stream,
registers the handlers, and — when options were supplied and `opts.tty` is
falsy — immediately calls `this.init()` (tty sessions wait, per the code's
comment, for terminal open before starting). -/
def mkProgramSession (opts : Option RunProgramOptions) :
    ProgramSessionState × Except JsError (List StreamAction) :=
  let st : ProgramSessionState :=
    { opts := opts, exitCode := none, isDisposed := false, initialized := false }
  match opts with
  | some o =>
    if o.tty = some true then (st, Except.ok [])
    else st.init none
  | none => (st, Except.ok [])

/-- Fold the `onMessage` handler over a sequence of incoming responses,
concatenating the action and event traces in delivery order. -/
def processMessages (st : ProgramSessionState) (msgs : List ExecuteResponse) :
    ProgramSessionState × List StreamAction × List SessionEvent :=
  msgs.foldl
    (fun acc msg =>
      ((acc.1.onMessage msg).1,
        acc.2.1 ++ (acc.1.onMessage msg).2.1,
        acc.2.2 ++ (acc.1.onMessage msg).2.2))
    (st, [], [])

/-- Count the `didClose` firings in an event trace. -/
def closeEventCount (evs : List SessionEvent) : Nat :=
  evs.countP fun e =>
    match e with
    | SessionEvent.didClose _ => true
    | _ => false

/-- runme.runner.v1.CreateSessionResponse: the `session` message field is
optional on the wire. -/
structure CreateSessionResponse where
  session : Option Session
deriving DecidableEq, Repr

/-- One slot of the `GrpcRunner` weak child registry
(`children: WeakRef<DisposableAsync>[]`): either an already-reclaimed
reference (`deref()` yields undefined), a `GrpcRunnerEnvironment` holding
its remote session id, or a `GrpcRunnerProgramSession`. -/
inductive ChildRef where
  | reclaimed
  | environment (sessionId : String)
  | programSession (st : ProgramSessionState)
deriving DecidableEq, Repr

/-- The fields of `GrpcRunner` relevant here: whether `transport.close()`
has been called, and the weak child registry. -/
structure RunnerState where
  channelClosed : Bool
  children : List ChildRef
deriving DecidableEq, Repr

/-- `GrpcRunner.close()`: `this.transport.close()`. -/
def runnerClose (st : RunnerState) : RunnerState :=
  { st with channelClosed := true }

/-- `GrpcRunner.createEnvironment(envs?, metadata?)`, parameterized by the
outcome of the `createSession` RPC.  The body builds a promise chain inside
a `try`/`catch`; the `catch` block (which would log, call `this.close()`
and rethrow) only observes a synchronous throw while building the chain.
The `"Did not receive session!!"` error is thrown inside the `.then`
callback and the trailing `.catch((e) => { throw e })` merely rethrows, so
both RPC rejections and the missing-session error reach the caller as
promise rejections without the `catch` block — and hence without
`this.close()` — ever running.  On success the new environment is
registered in the child registry. -/
def createEnvironment (st : RunnerState)
    (rpcResult : Except JsError CreateSessionResponse) :
    RunnerState × Except JsError Session :=
  match rpcResult with
  | Except.error e => (st, Except.error e)
  | Except.ok resp =>
    match resp.session with
    | none => (st, Except.error ⟨"Did not receive session!!"⟩)
    | some s =>
      ({ st with children := st.children ++ [ChildRef.environment s.id] },
        Except.ok s)

/-- `GrpcRunnerEnvironment.dispose()`: `await this.delete()`, i.e. the
`deleteSession({ id })` RPC with no catch — any rejection (for instance a
missing or already-deleted remote session) propagates to the awaiter. -/
def environmentDispose (sessionId : String)
    (deleteSession : String → Except JsError Unit) : Except JsError Unit :=
  deleteSession sessionId

/-- One step of `GrpcRunner.dispose`'s `this.children.map(c =>
c.deref()?.dispose())`: a reclaimed slot short-circuits to undefined
(resolved), an environment issues its delete RPC, and a program session
runs `ProgramSessionState.dispose true` (whose stream actions are modelled
separately and which never rejects here). -/
def childDispose (deleteSession : String → Except JsError Unit) :
    ChildRef → Except JsError Unit
  | ChildRef.reclaimed => Except.ok ()
  | ChildRef.environment sid => environmentDispose sid deleteSession
  | ChildRef.programSession _ => Except.ok ()

/-- The rejection carried by one settled child disposal, if any. -/
def rejectionOf : Except JsError Unit → Option JsError
  | Except.error e => some e
  | Except.ok _ => none

/-- `GrpcRunner.dispose()`: awaits `Promise.all` over the per-child
disposals and then — only if all of them resolved — closes the transport.
`Promise.all` rejects with the first rejection, in which case the `.then(()
=> this.close())` continuation never runs and the channel stays open. -/
def runnerDispose (st : RunnerState)
    (deleteSession : String → Except JsError Unit) :
    RunnerState × Except JsError Unit :=
  match (st.children.map (childDispose deleteSession)).findSome? rejectionOf with
  | some e => (st, Except.error e)
  | none => (runnerClose st, Except.ok ())

/-- The field values of a `GrpcRunnerProgramSession` right after
`new GrpcRunnerProgramSession(client)` with no options (as from
`createProgramSession`). -/
def freshSession : ProgramSessionState :=
  { opts := none, exitCode := none, isDisposed := false, initialized := false }

/-- The field values of a constructed-but-uninitialized session holding
options `o` (a tty session before `run`). -/
def uninitWith (o : RunProgramOptions) : ProgramSessionState :=
  { opts := some o, exitCode := none, isDisposed := false, initialized := false }

/-- The field values of a session holding options `o` right after its
(unique) successful `init`. -/
def initializedWith (o : RunProgramOptions) : ProgramSessionState :=
  { opts := some o, exitCode := none, isDisposed := false, initialized := true }

/-- A non-tty spec used by concrete scenarios. -/
def bashOpts : RunProgramOptions :=
  { programName := "bash" }

/-- A session auto-initialized at construction from `bashOpts`: the Running
state for the concrete scenarios. -/
def startedSession : ProgramSessionState :=
  (mkProgramSession (some bashOpts)).1

/-- C1: the claim says handleInput after dispose(), or after a close with
an undefined code, fails with StateError and performs no send.  The code
violates this: dispose() never assigns isDisposed, and close(undefined)
leaves exitCode undefined, so hasExited() stays false and handleInput
succeeds, sending the input bytes on the stream of the terminated
execution.  This theorem evaluates both failing runs. -/
theorem C1_handleInput_after_dispose_sends :
    ((freshSession.dispose true).1.handleInput "x"
      = ((freshSession.dispose true).1,
          Except.ok [StreamAction.send (ProgramSessionState.inputRequest "x")]))
    ∧ ((freshSession.close none).1.handleInput "x"
      = ((freshSession.close none).1,
          Except.ok [StreamAction.send (ProgramSessionState.inputRequest "x")])) :=
  ⟨rfl, rfl⟩

/-- C3: the claim says a createEnvironment call whose daemon response has
no session payload closes the Channel and propagates the error.  The code
does propagate the error (the missing-session Error rejects the returned
promise), but the catch block containing this.close() only observes
synchronous throws, so the Channel stays open: the resulting runner state
is unchanged, with channelClosed still false. -/
theorem C3_missing_session_leaves_channel_open :
    createEnvironment { channelClosed := false, children := [] }
        (Except.ok { session := none })
      = ({ channelClosed := false, children := [] },
          Except.error ⟨"Did not receive session!!"⟩) :=
  rfl

/-- C5: the claim says a tty session defers the execute request to the
first open call.  Construction indeed sends nothing for a tty spec, but
the open hook has an empty body: it neither initializes the session nor
sends anything, so the execute request is never sent at all. -/
theorem C5_open_does_not_send_init :
    mkProgramSession (some { programName := "bash", tty := some true })
      = (uninitWith { programName := "bash", tty := some true }, Except.ok [])
    ∧ openHook (uninitWith { programName := "bash", tty := some true })
        (some { columns := 80, rows := 24 })
      = (uninitWith { programName := "bash", tty := some true }, []) :=
  ⟨rfl, rfl⟩

/-- C6: the claim says dispose marks the session disposed and a second
dispose call is a no-op.  The code never assigns isDisposed, so the first
dispose(true) leaves the state unchanged (isDisposed still false) and a
second dispose(true) sends the stream completion again. -/
theorem C6_second_dispose_sends_again :
    freshSession.dispose true = (freshSession, [StreamAction.complete])
    ∧ (freshSession.dispose true).1.dispose true
      = (freshSession, [StreamAction.complete]) :=
  ⟨rfl, rfl⟩

/-- C7: dispose(false) never sends a stream half-close: for every session
state, dispose with endSession false leaves the state unchanged and
performs no stream action at all (both when already disposed and when
not). -/
theorem C7_dispose_false_sends_nothing (st : ProgramSessionState) :
    st.dispose false = (st, []) := by
  unfold ProgramSessionState.dispose
  by_cases h : st.isDisposed <;> simp [h]

/-- C4 counterexample: a Running session that receives a message with exit
code 1 and is then closed locally fires the close event twice — once from
the received exit code and once from the explicit local close — refuting
the claim that the two never both fire. -/
theorem C4_counterexample_double_close_event :
    closeEventCount
      ((startedSession.onMessage { exitCode := some ⟨1⟩ }).2.2
        ++ ((startedSession.onMessage { exitCode := some ⟨1⟩ }).1.close none).2.2)
      = 2 :=
  rfl

/-- C4 amended: every call to close fires exactly one close event, but
close is unguarded, so a session that receives a remote exit code and is
then also closed locally fires one close event for each of the two
transitions — two in total. -/
theorem C4_close_fires_once_per_call (st : ProgramSessionState)
    (code : Option UInt32Value) (ec : UInt32Value) :
    (st.close code).2.2 = [SessionEvent.didClose (code.map UInt32Value.value)]
    ∧ closeEventCount
        ((st.onMessage { exitCode := some ec }).2.2
          ++ ((st.onMessage { exitCode := some ec }).1.close none).2.2)
      = 2 :=
  ⟨rfl, rfl⟩

/-- C8: a Running session receiving first a message whose stdout bytes are
the UTF-8 encoding of "hi", then a message carrying exit code 0, emits
exactly the raw-stdout event followed by the close event with code 0 (the
empty stderr payloads raise nothing, and the present exit-code wrapper is
acted on even though its value is 0), and its exitCode field reads 0
afterwards. -/
theorem C8_stdout_then_exit_scenario :
    (processMessages startedSession
        [{ stdoutData := utf8Bytes "hi" }, { exitCode := some ⟨0⟩ }]).2.2
      = [SessionEvent.stdoutRaw (utf8Bytes "hi"), SessionEvent.didClose (some 0)]
    ∧ (processMessages startedSession
        [{ stdoutData := utf8Bytes "hi" }, { exitCode := some ⟨0⟩ }]).1.exitCode
      = some ⟨0⟩ :=
  ⟨rfl, rfl⟩

/-- C9: mapping an ExecuteSpec whose environment is a GrpcRunnerEnvironment
and whose body is the script variant yields the wire request with sessionId
equal to that environment's session id and script equal to the body text,
with commands unset; mapping an ExecuteSpec whose environment is a foreign
implementation fails with the wrong-environment error. -/
theorem C9_request_mapping (opts : RunProgramOptions) (s : Session) (body : String)
    (henv : opts.environment = some (RunnerEnvironmentRef.grpc s))
    (hbody : opts.script = some (ScriptOptions.script body)) :
    runOptionsToExecuteRequest opts
      = Except.ok
          { programName := some opts.programName
            arguments := opts.args
            directory := opts.cwd
            envs := opts.envs
            tty := opts.tty
            background := opts.background
            sessionId := some s.id
            commands := none
            script := some body
            inputData := none }
    ∧ ∀ o : RunProgramOptions,
        o.environment = some RunnerEnvironmentRef.foreign →
        runOptionsToExecuteRequest o = Except.error ⟨"Expected gRPC environment!"⟩ := by
  constructor
  · unfold runOptionsToExecuteRequest
    rw [henv, hbody]
    rfl
  · intro o ho
    unfold runOptionsToExecuteRequest
    rw [ho]

/-- C9 witness: the mapping theorem applied to the concrete scenario of the
spec — an environment with session id "sess-1" and envs FOO=1, and the body
script "echo hi". -/
theorem C9_request_mapping_witness :
    runOptionsToExecuteRequest
        { programName := "sh"
          script := some (ScriptOptions.script "echo hi")
          environment := some (RunnerEnvironmentRef.grpc ⟨"sess-1", ["FOO=1"], []⟩) }
      = Except.ok
          { programName := some "sh", sessionId := some "sess-1", script := some "echo hi" }
    ∧ runOptionsToExecuteRequest
        { programName := "sh", environment := some RunnerEnvironmentRef.foreign }
      = Except.error ⟨"Expected gRPC environment!"⟩ := by
  have h := C9_request_mapping
    { programName := "sh"
      script := some (ScriptOptions.script "echo hi")
      environment := some (RunnerEnvironmentRef.grpc ⟨"sess-1", ["FOO=1"], []⟩) }
    ⟨"sess-1", ["FOO=1"], []⟩ "echo hi" rfl rfl
  exact ⟨h.1, h.2 _ rfl⟩

/-- When every child's disposal resolves, the settled results carry no
rejection. -/
theorem findSome?_rejection_none (f : ChildRef → Except JsError Unit) :
    ∀ l : List ChildRef, (∀ c ∈ l, f c = Except.ok ()) →
      (l.map f).findSome? rejectionOf = none := by
  intro l
  induction l with
  | nil => intro _; rfl
  | cons a t ih =>
    intro h
    have ha : f a = Except.ok () := h a (List.mem_cons_self a t)
    have ht : ∀ c ∈ t, f c = Except.ok () :=
      fun c hc => h c (List.mem_cons_of_mem a hc)
    simp [List.findSome?, ha, rejectionOf, ih ht]

/-- C10 counterexample: a Runner whose only registered child is an
Environment whose remote session is already deleted (so its deleteSession
RPC rejects) makes runnerDispose reject with that error — and the channel
is left open — refuting the claim that such a child does not make
Runner.dispose() fail. -/
theorem C10_counterexample_env_delete_rejects :
    runnerDispose { channelClosed := false, children := [ChildRef.environment "s1"] }
        (fun _ => Except.error ⟨"session not found"⟩)
      = ({ channelClosed := false, children := [ChildRef.environment "s1"] },
          Except.error ⟨"session not found"⟩) :=
  rfl

/-- C10 amended: Runner.dispose() skips reclaimed registry entries and
tolerates ProgramSession children, completing without error and closing the
channel whenever every remaining Environment child's deleteSession RPC
resolves; a rejected deleteSession, however, propagates out of dispose. -/
theorem C10_dispose_ok_when_child_disposals_succeed (st : RunnerState)
    (deleteSession : String → Except JsError Unit)
    (h : ∀ sid, ChildRef.environment sid ∈ st.children → deleteSession sid = Except.ok ()) :
    runnerDispose st deleteSession = (runnerClose st, Except.ok ()) := by
  have hall : ∀ c ∈ st.children, childDispose deleteSession c = Except.ok () := by
    intro c hc
    cases c with
    | reclaimed => rfl
    | environment sid => exact h sid hc
    | programSession ps => rfl
  unfold runnerDispose
  rw [findSome?_rejection_none (childDispose deleteSession) st.children hall]

/-- C10 witness: disposing a Runner holding a reclaimed slot, an
Environment whose delete succeeds, and a ProgramSession resolves and closes
the channel. -/
theorem C10_dispose_witness :
    runnerDispose
        { channelClosed := false
          children := [ChildRef.reclaimed, ChildRef.environment "a",
                       ChildRef.programSession freshSession] }
        (fun _ => Except.ok ())
      = (runnerClose
          { channelClosed := false
            children := [ChildRef.reclaimed, ChildRef.environment "a",
                         ChildRef.programSession freshSession] },
          Except.ok ()) :=
  C10_dispose_ok_when_child_disposals_succeed _ _ (fun _ _ => rfl)

/-- C2: for every combination of a spec supplied at construction and a spec
supplied to run, the first initialization sends the mapped execute request
of the effective spec and every later initialization attempt fails with the
already-initialized error, sending nothing: a non-tty construction spec
auto-initializes; a construction without a spec sends nothing until the
first run; a tty construction spec defers, and the first run then maps the
construction spec (the nullish assignment keeps it); and run on any
initialized session fails with the already-initialized error and leaves the
state unchanged. -/
theorem C2_second_init_fails (opts1 opts2 : RunProgramOptions) (req1 : ExecuteRequest)
    (hmap : runOptionsToExecuteRequest opts1 = Except.ok req1) :
    (opts1.tty ≠ some true →
      mkProgramSession (some opts1)
        = (initializedWith opts1, Except.ok [StreamAction.send req1]))
    ∧ mkProgramSession none = (freshSession, Except.ok [])
    ∧ freshSession.run opts1
        = (initializedWith opts1, Except.ok [StreamAction.send req1])
    ∧ (opts1.tty = some true →
        mkProgramSession (some opts1) = (uninitWith opts1, Except.ok [])
        ∧ (uninitWith opts1).run opts2
            = (initializedWith opts1, Except.ok [StreamAction.send req1]))
    ∧ (initializedWith opts1).run opts2
        = (initializedWith opts1, Except.error ⟨"Already initialized!"⟩) := by
  refine ⟨?_, rfl, ?_, ?_, ?_⟩
  · intro h
    simp [mkProgramSession, ProgramSessionState.init, optsOr, h, hmap, initializedWith]
  · simp [ProgramSessionState.run, ProgramSessionState.init, optsOr, freshSession,
      hmap, initializedWith]
  · intro h
    refine ⟨by simp [mkProgramSession, h, uninitWith], ?_⟩
    simp [ProgramSessionState.run, ProgramSessionState.init, optsOr, uninitWith,
      hmap, initializedWith]
  · simp [ProgramSessionState.run, ProgramSessionState.init, optsOr, initializedWith]

/-- C2 witness: constructing with the non-tty spec bashOpts auto-initializes
and sends its mapped request, and a subsequent run fails with the
already-initialized error. -/
theorem C2_second_init_fails_witness :
    mkProgramSession (some bashOpts)
      = (initializedWith bashOpts,
          Except.ok [StreamAction.send { programName := some "bash" }])
    ∧ (initializedWith bashOpts).run { programName := "ls" }
        = (initializedWith bashOpts, Except.error ⟨"Already initialized!"⟩) := by
  have h := C2_second_init_fails bashOpts { programName := "ls" }
    { programName := some "bash" } rfl
  exact ⟨h.1 (by decide), h.2.2.2.2⟩

end Runme
